import Mathlib

/-!
# PharmAI-Backend gateway: shallow embedding and verification

This file embeds the request-handling logic of the PharmAI backend gateway
(an Express HTTP server proxying to an external agent service and an
external inference endpoint) and proves/refutes the frozen specification
claims about it.

Embedded source files:
* `agentRoutes.js` — the four agent proxy routes (`run`, `history`, `delete`,
  `health`);
* `server.js` — the final catch-all error handler and the startup sequence;
* `services/hfservice.js` — two variants (ESM and CJS) of the outbound
  inference-call wrapper `callHFModel`;
* `routes/modelRoutes.js` and its ESM sibling — two variants of the
  `POST /api/model/predict` route.

Each route handler is modelled as a pure function from the parsed request
data and the outcome of the (single) outbound axios call to the HTTP
response it sends, paired with a record of the outbound request it issues
(so that claims about headers, forwarded bodies, and "no call is made" are
statable).  Axios semantics relevant here: a call resolves exactly when the
upstream status is 2xx; otherwise it rejects with an error that carries
`response` when an HTTP response arrived, or `code = "ECONNREFUSED"` /
a timeout code with no `response` for transport failures.
-/

/-- JSON values, the data crossing the gateway's boundary.  JavaScript
number semantics (floats, NaN) are restricted to integers, which covers
every payload the claims mention; duplicate keys in objects are not
modelled (lookup takes the first binding). -/
inductive Json where
  | null : Json
  | bool (b : Bool) : Json
  | num (n : Int) : Json
  | str (s : String) : Json
  | arr (xs : List Json) : Json
  | obj (fields : List (String × Json)) : Json


/-- Property lookup on a JavaScript value: `v[k]` is `undefined` (here
`none`) when `v` is not an object or lacks the key. -/
def Json.lookup : Json → String → Option Json
  | .obj fields, k => fields.lookup k
  | _, _ => none

/-- JavaScript truthiness of a possibly-`undefined` value: `undefined`,
`null`, `false`, `0`, and `""` are falsy; everything else is truthy. -/
def truthy : Option Json → Bool
  | none => false
  | some .null => false
  | some (.bool b) => b
  | some (.num n) => decide (n ≠ 0)
  | some (.str s) => decide (s ≠ "")
  | some (.arr _) => true
  | some (.obj _) => true

/-- The JavaScript `a || b` idiom on a possibly-`undefined` value: the
value itself when truthy, otherwise `b`. -/
def jsOr (a : Option Json) (b : Json) : Json :=
  match a with
  | some v => if truthy (some v) then v else b
  | none => b

/-- `process.env` entry truthiness: unset or empty string is falsy. -/
def truthyStr : Option String → Bool
  | none => false
  | some s => decide (s ≠ "")

/-- The JavaScript `s || d` idiom on an environment string. -/
def strOr (a : Option String) (d : String) : String :=
  match a with
  | some s => if s = "" then d else s
  | none => d

/-- An HTTP response sent by the gateway: `res.status(s).json(body)`. -/
structure HttpResponse where
  status : Nat
  body : Json


/-- An axios failure (`err` in a route's catch block).  `response` carries
the upstream status and body when an HTTP response arrived (axios rejects
for every non-2xx status); `refused` is `err.code = "ECONNREFUSED"`;
`timeout` is a timeout abort; `other` is any other transport failure.
Every variant carries `err.message`. -/
inductive AxiosError where
  | response (status : Nat) (data : Json) (message : String) : AxiosError
  | refused (message : String) : AxiosError
  | timeout (message : String) : AxiosError
  | other (message : String) : AxiosError


/-- `err.message` of an axios error. -/
def AxiosError.msg : AxiosError → String
  | .response _ _ m => m
  | .refused m => m
  | .timeout m => m
  | .other m => m

/-- Outcome of one outbound axios call: `ok status data` when the promise
resolves (axios' default `validateStatus` accepts exactly 2xx statuses),
`err e` when it rejects. -/
inductive AxiosOutcome where
  | ok (status : Nat) (data : Json) : AxiosOutcome
  | err (e : AxiosError) : AxiosOutcome


/-- HTTP method of an outbound request. -/
inductive HttpMethod where
  | get : HttpMethod
  | post : HttpMethod
  | delete : HttpMethod


/-- The outbound request a route hands to axios: URL, optional JSON body,
the explicit headers of the axios config, and the configured timeout in
milliseconds (`none` when the config sets no timeout). -/
structure OutboundReq where
  method : HttpMethod
  url : String
  body : Option Json
  headers : List (String × String)
  timeout : Option Nat


/-- A JavaScript `Error` as the gateway throws and catches it: `message`
plus the optional `statusCode` property that `hfservice.js` attaches. -/
structure JsError where
  message : String
  statusCode : Option Nat


/-- The catch-all error handler installed last in `server.js`:
`res.status(err.statusCode || 500).json({ error: err.message || "Internal Server Error" })`. -/
def errorHandler (e : JsError) : HttpResponse :=
  { status := match e.statusCode with
      | some s => if s = 0 then 500 else s
      | none => 500,
    body := .obj [("error", .str (if e.message = "" then "Internal Server Error" else e.message))] }

/-- The operator guidance `POST /api/agent/run` returns on connection
refusal. -/
def runRefusedMsg : String :=
  "Python backend is not running. Start it with: uvicorn app:app --port 7860"

/-- `POST /api/agent/run` from `agentRoutes.js`: destructures
`{session_id, query}` from the body; replies 400 when `query` is falsy
(making no outbound call); otherwise POSTs
`{session_id: session_id || null, query}` to `<backend>/run` with a JSON
content type and a 120000 ms timeout, then replies 200 with the upstream
body, or translates the failure (upstream error response → upstream status
with `error`/`details`; ECONNREFUSED → 503 with operator guidance; anything
else → the catch-all error handler).  Returns the response sent and the
outbound request made, `none` when validation rejects before any call. -/
def runRoute (reqBody : Json) (backendUrl : String) (outcome : AxiosOutcome) :
    HttpResponse × Option OutboundReq :=
  let session_id := reqBody.lookup "session_id"
  let query := reqBody.lookup "query"
  if truthy query = false then
    ({ status := 400, body := .obj [("error", .str "query is required")] }, none)
  else
    let call : OutboundReq :=
      { method := .post
        url := backendUrl ++ "/run"
        body := some (.obj [("session_id", jsOr session_id .null),
                            ("query", query.getD .null)])
        headers := [("Content-Type", "application/json")]
        timeout := some 120000 }
    match outcome with
    | .ok _ data => ({ status := 200, body := data }, some call)
    | .err (.response s d _) =>
        ({ status := s
           body := .obj [("error", jsOr (d.lookup "detail")
                                     (jsOr (d.lookup "error") (.str "Agent execution failed"))),
                         ("details", d)] }, some call)
    | .err (.refused _) =>
        ({ status := 503, body := .obj [("error", .str runRefusedMsg)] }, some call)
    | .err (.timeout m) => (errorHandler { message := m, statusCode := none }, some call)
    | .err (.other m) => (errorHandler { message := m, statusCode := none }, some call)

/-- `GET /api/agent/session/:session_id/history` from `agentRoutes.js`:
GETs `<backend>/session/<id>/history` with a 5000 ms timeout and no
explicit headers; replies 200 with the upstream body, wraps an upstream
error response as `{error: "Failed to retrieve session history", details}`
under the upstream status, and delegates transport failures to the
catch-all error handler. -/
def historyRoute (sessionId : String) (backendUrl : String) (outcome : AxiosOutcome) :
    HttpResponse × OutboundReq :=
  let call : OutboundReq :=
    { method := .get
      url := backendUrl ++ "/session/" ++ sessionId ++ "/history"
      body := none
      headers := []
      timeout := some 5000 }
  match outcome with
  | .ok _ data => ({ status := 200, body := data }, call)
  | .err (.response s d _) =>
      ({ status := s
         body := .obj [("error", .str "Failed to retrieve session history"),
                       ("details", d)] }, call)
  | .err e => (errorHandler { message := e.msg, statusCode := none }, call)

/-- `DELETE /api/agent/session/:session_id` from `agentRoutes.js`: same
relay/wrap policy as `historyRoute` with message "Failed to clear session". -/
def deleteRoute (sessionId : String) (backendUrl : String) (outcome : AxiosOutcome) :
    HttpResponse × OutboundReq :=
  let call : OutboundReq :=
    { method := .delete
      url := backendUrl ++ "/session/" ++ sessionId
      body := none
      headers := []
      timeout := some 5000 }
  match outcome with
  | .ok _ data => ({ status := 200, body := data }, call)
  | .err (.response s d _) =>
      ({ status := s
         body := .obj [("error", .str "Failed to clear session"),
                       ("details", d)] }, call)
  | .err e => (errorHandler { message := e.msg, statusCode := none }, call)

/-- `GET /api/agent/health` from `agentRoutes.js`: GETs `<backend>/health`
with a 3000 ms timeout and no explicit headers; on success replies 200 with
`{status: "ok", python_backend: <upstream body>, backend_url}`; on any
failure (the catch block does not inspect `err.response`) replies 503 with
`{status: "error", error, backend_url, message}`. -/
def healthRoute (backendUrl : String) (outcome : AxiosOutcome) :
    HttpResponse × OutboundReq :=
  let call : OutboundReq :=
    { method := .get
      url := backendUrl ++ "/health"
      body := none
      headers := []
      timeout := some 3000 }
  match outcome with
  | .ok _ data =>
      ({ status := 200
         body := .obj [("status", .str "ok"),
                       ("python_backend", data),
                       ("backend_url", .str backendUrl)] }, call)
  | .err e =>
      ({ status := 503
         body := .obj [("status", .str "error"),
                       ("error", .str "Python backend unreachable"),
                       ("backend_url", .str backendUrl),
                       ("message", .str e.msg)] }, call)

/-- `agentRoutes.js` module-scope constant:
`process.env.PYTHON_BACKEND_URL || "http://localhost:7860"`. -/
def pythonBackendUrl (envVar : Option String) : String :=
  strOr envVar "http://localhost:7860"

/-- One character of `JSON.stringify` string escaping (quote, backslash and
the common control characters; `\uXXXX` escapes for other control
characters are not modelled, no claim evaluates them). -/
def escapeChar (c : Char) : String :=
  if c = '"' then "\\\""
  else if c = '\\' then "\\\\"
  else if c = '\n' then "\\n"
  else if c = '\r' then "\\r"
  else if c = '\t' then "\\t"
  else String.singleton c

/-- `JSON.stringify` escaping of a string body. -/
def escapeString (s : String) : String :=
  String.join (s.toList.map escapeChar)

mutual

/-- `JSON.stringify`, as the CJS `callHFModel` uses it to build its error
message (numbers restricted to integers, matching the `Json` model). -/
def Json.stringify : Json → String
  | .null => "null"
  | .bool true => "true"
  | .bool false => "false"
  | .num n => toString n
  | .str s => "\"" ++ escapeString s ++ "\""
  | .arr xs => "[" ++ stringifyList xs ++ "]"
  | .obj fs => "\x7b" ++ stringifyFields fs ++ "\x7d"

/-- Comma-joined `JSON.stringify` of array elements. -/
def stringifyList : List Json → String
  | [] => ""
  | [x] => Json.stringify x
  | x :: xs => Json.stringify x ++ "," ++ stringifyList xs

/-- Comma-joined `JSON.stringify` of object entries. -/
def stringifyFields : List (String × Json) → String
  | [] => ""
  | [(k, v)] => "\"" ++ escapeString k ++ "\":" ++ Json.stringify v
  | (k, v) :: fs => "\"" ++ escapeString k ++ "\":" ++ Json.stringify v ++ "," ++ stringifyFields fs

end

/-- The environment variables the embedded code reads. -/
structure Env where
  HF_MODEL_URL : Option String
  HF_API_TOKEN : Option String
  HF_API_KEY : Option String
  PORT : Option String

/-- Status a failed CJS inference call reports:
`err?.response?.status || 500`. -/
def hfErrStatus : AxiosError → Nat
  | .response s _ _ => if s = 0 then 500 else s
  | _ => 500

/-- Data a failed CJS inference call reports:
`err?.response?.data || { message: err.message }`. -/
def hfErrData : AxiosError → Json
  | .response _ d m => if truthy (some d) then d else .obj [("message", .str m)]
  | e => .obj [("message", .str e.msg)]

/-- Headers the CJS `callHFModel` builds: always a JSON content type, plus
an `Authorization` bearer header when `HF_API_TOKEN` is set (truthy). -/
def hfHeadersCJS (env : Env) : List (String × String) :=
  [("Content-Type", "application/json")] ++
    (if truthyStr env.HF_API_TOKEN then
      [("Authorization", "Bearer " ++ env.HF_API_TOKEN.getD "")]
    else [])

/-- The CJS `callHFModel` from `services/hfservice.js`: throws a
`statusCode = 503` error when `HF_MODEL_URL` is unset (falsy), before any
outbound call; otherwise posts the payload (no timeout configured) and
returns the response data, wrapping any axios failure as an `Error` whose
message is `HF call failed (<status>): <JSON.stringify(data)>` and whose
`statusCode` is the upstream status or 500. -/
def callHFModelCJS (env : Env) (outcome : AxiosOutcome) : Except JsError Json :=
  if truthyStr env.HF_MODEL_URL = false then
    .error { message := "HF_MODEL_URL is missing in .env", statusCode := some 503 }
  else
    match outcome with
    | .ok _ data => .ok data
    | .err e =>
        .error { message := "HF call failed (" ++ toString (hfErrStatus e) ++ "): "
                             ++ (hfErrData e).stringify
                 statusCode := some (hfErrStatus e) }

/-- Headers the ESM `callHFModel` builds: a JSON content type and always an
`Authorization` header, `Bearer ` followed by `HF_API_KEY || ""`. -/
def hfHeadersESM (env : Env) : List (String × String) :=
  [("Content-Type", "application/json"),
   ("Authorization", "Bearer " ++ strOr env.HF_API_KEY "")]

/-- The ESM `callHFModel`: posts and returns the response data, rethrowing
any axios error unchanged. -/
def callHFModelESM (outcome : AxiosOutcome) : Except AxiosError Json :=
  match outcome with
  | .ok _ data => .ok data
  | .err e => .error e

/-- The ESM variant of `POST /predict`: replies `{success: true, result}`
(status 200, the `res.json` default) on success and a fixed
`{success: false, error: "Inference failed"}` with status 500 on any
failure. -/
def predictRouteESM (outcome : AxiosOutcome) : HttpResponse :=
  match callHFModelESM outcome with
  | .ok result => { status := 200, body := .obj [("success", .bool true), ("result", result)] }
  | .error _ => { status := 500, body := .obj [("success", .bool false), ("error", .str "Inference failed")] }

/-- The CJS `POST /predict` from `routes/modelRoutes.js` — the variant
`server.js` mounts at `/api/model`: replies 200 with the `callHFModel`
result unwrapped, and delegates any thrown error to the catch-all
error handler via `next(err)`. -/
def predictRouteCJS (env : Env) (outcome : AxiosOutcome) : HttpResponse :=
  match callHFModelCJS env outcome with
  | .ok result => { status := 200, body := result }
  | .error e => errorHandler e

/-- The `server.js` startup sequence: connect the document store, then
listen on `process.env.PORT || 5000` (the port modelled in string form).
Of the environment, startup reads only `PORT`; in particular it never
consults `HF_MODEL_URL`. -/
def serverStartup (env : Env) (dbConnects : Bool) : Except String String :=
  if dbConnects then .ok (strOr env.PORT "5000")
  else .error "Failed to start server"

/-! ## Helper lemmas -/

/-- `a || b` written as an `if` on truthiness. -/
theorem jsOr_eq_ite (a : Option Json) (b : Json) :
    jsOr a b = if truthy a then a.getD b else b := by
  cases a <;> simp [jsOr, truthy]

/-! ## Claims -/

/-- C1 counterexample: the run route hardcodes `res.status(200)`, so when
the upstream `/run` call succeeds with status 201 (axios resolves any 2xx)
the gateway's status is 200, not the upstream status. -/
theorem run_status_cex :
    (runRoute (.obj [("query", .str "q")]) "http://localhost:7860"
        (.ok 201 (.str "y"))).fst.status = 200
    ∧ (200 : Nat) ≠ 201 :=
  ⟨rfl, by decide⟩

/-- C1 (amended): for every run request with a truthy `query`, when the
upstream call succeeds the gateway replies with status 200 — the literal in
the code, which equals the upstream status exactly when the upstream
returns 200, the normal case — and the upstream body unmodified. -/
theorem run_success_status_body
    (body : Json) (url : String) (s : Nat) (d : Json)
    (h : truthy (body.lookup "query") = true) :
    (runRoute body url (.ok s d)).fst = { status := 200, body := d } := by
  simp [runRoute, h]

theorem run_success_status_body_witness :
    (runRoute (.obj [("query", .str "hi")]) "http://localhost:7860"
        (.ok 200 (.str "brief"))).fst = { status := 200, body := .str "brief" } :=
  run_success_status_body _ _ 200 _ (by decide)

/-- C2: a run request whose body lacks `query` or carries an empty-string
`query` is rejected with status 400 and body `{error: "query is required"}`,
and no outbound call to the agent service is made. -/
theorem run_missing_query_rejected
    (body : Json) (url : String) (outcome : AxiosOutcome)
    (h : body.lookup "query" = none ∨ body.lookup "query" = some (.str "")) :
    runRoute body url outcome
      = ({ status := 400, body := .obj [("error", .str "query is required")] }, none) := by
  have ht : truthy (body.lookup "query") = false := by
    rcases h with h | h <;> simp [h, truthy]
  simp [runRoute, ht]

theorem run_missing_query_rejected_witness :
    runRoute (.obj [("session_id", .str "s1")]) "http://localhost:7860" (.ok 200 .null)
      = ({ status := 400, body := .obj [("error", .str "query is required")] }, none) :=
  run_missing_query_rejected _ _ _ (Or.inl rfl)

/-- C3: the health route replies 200 with top-level `status: "ok"` whenever
the upstream health call succeeds — whatever the upstream body reports —
and 503 with top-level `status: "error"` on any failure; in particular the
response status is always 200 or 503, never the upstream's. -/
theorem health_route_contract (url : String) (s : Nat) (d : Json) (e : AxiosError) :
    (healthRoute url (.ok s d)).fst.status = 200
    ∧ (healthRoute url (.ok s d)).fst.body.lookup "status" = some (.str "ok")
    ∧ (healthRoute url (.err e)).fst.status = 503
    ∧ (healthRoute url (.err e)).fst.body.lookup "status" = some (.str "error") :=
  ⟨rfl, rfl, rfl, rfl⟩

/-- C4: when the outbound run call fails with connection refused, the
gateway replies 503 with an error message containing the instruction for
starting the backend. -/
theorem run_refused_guidance
    (body : Json) (url m : String)
    (h : truthy (body.lookup "query") = true) :
    (runRoute body url (.err (.refused m))).fst
      = { status := 503, body := .obj [("error", .str runRefusedMsg)] }
    ∧ ∃ pre post, runRefusedMsg = pre ++ "Start it with: uvicorn app:app --port 7860" ++ post := by
  refine ⟨by simp [runRoute, h], "Python backend is not running. ", "", by decide⟩

theorem run_refused_guidance_witness :
    (runRoute (.obj [("query", .str "hi")]) "http://localhost:7860"
        (.err (.refused "connect ECONNREFUSED 127.0.0.1:7860"))).fst
      = { status := 503, body := .obj [("error", .str runRefusedMsg)] } :=
  (run_refused_guidance _ _ _ (by decide)).1

/-- C5 counterexample: a connection-refused failure on the history route
reaches the catch-all handler and yields status 500 with the raw axios
message — not a 503 response with remediation text as claimed for every
route and both transport failure kinds. -/
theorem transport_mapping_cex :
    (historyRoute "abc" "http://localhost:7860"
        (.err (.refused "connect ECONNREFUSED 127.0.0.1:7860"))).fst
      = { status := 500,
          body := .obj [("error", .str "connect ECONNREFUSED 127.0.0.1:7860")] }
    ∧ (500 : Nat) ≠ 503 :=
  ⟨rfl, by decide⟩

/-- C5 (amended): connection refusal on the run route yields 503 with
remediation text, and every health-route failure yields 503; but a timeout
on run, both transport failure kinds on history and delete, and transport
failures on the mounted model proxy, all reach the catch-all error handler
and yield status 500 with the raw error message. -/
theorem transport_failure_mapping
    (body : Json) (url sid m : String) (e : AxiosError) (env : Env)
    (hq : truthy (body.lookup "query") = true)
    (hurl : truthyStr env.HF_MODEL_URL = true) :
    (runRoute body url (.err (.refused m))).fst.status = 503
    ∧ (healthRoute url (.err e)).fst.status = 503
    ∧ (runRoute body url (.err (.timeout m))).fst
        = errorHandler { message := m, statusCode := none }
    ∧ (historyRoute sid url (.err (.refused m))).fst
        = errorHandler { message := m, statusCode := none }
    ∧ (historyRoute sid url (.err (.timeout m))).fst
        = errorHandler { message := m, statusCode := none }
    ∧ (deleteRoute sid url (.err (.refused m))).fst
        = errorHandler { message := m, statusCode := none }
    ∧ (deleteRoute sid url (.err (.timeout m))).fst
        = errorHandler { message := m, statusCode := none }
    ∧ (errorHandler { message := m, statusCode := none }).status = 500
    ∧ (predictRouteCJS env (.err (.refused m))).status = 500
    ∧ (predictRouteCJS env (.err (.timeout m))).status = 500 := by
  refine ⟨by simp [runRoute, hq], rfl, by simp [runRoute, hq], rfl, rfl, rfl, rfl, rfl, ?_, ?_⟩
  all_goals simp [predictRouteCJS, callHFModelCJS, hurl, hfErrStatus, errorHandler]

theorem transport_failure_mapping_witness :
    (runRoute (.obj [("query", .str "hi")]) "http://localhost:7860"
        (.err (.refused "connect ECONNREFUSED"))).fst.status = 503
    ∧ (predictRouteCJS
        { HF_MODEL_URL := some "https://hf.example/predict",
          HF_API_TOKEN := none, HF_API_KEY := none, PORT := none }
        (.err (.timeout "timeout of 120000ms exceeded"))).status = 500 :=
  ⟨(transport_failure_mapping (.obj [("query", .str "hi")]) "http://localhost:7860" "s"
      "connect ECONNREFUSED" (.other "x")
      { HF_MODEL_URL := some "https://hf.example/predict",
        HF_API_TOKEN := none, HF_API_KEY := none, PORT := none }
      (by decide) (by decide)).1,
   (transport_failure_mapping (.obj [("query", .str "hi")]) "http://localhost:7860" "s"
      "timeout of 120000ms exceeded" (.other "x")
      { HF_MODEL_URL := some "https://hf.example/predict",
        HF_API_TOKEN := none, HF_API_KEY := none, PORT := none }
      (by decide) (by decide)).2.2.2.2.2.2.2.2.2⟩

/-- C6 counterexample: on success the history route replies with the
hardcoded status 200 rather than relaying an upstream 201, and on a
transport failure (timeout, no upstream response) the catch-all handler
replies 500 with the raw axios message, not a "failed to retrieve"
wrapper. -/
theorem history_wrap_cex :
    (historyRoute "abc" "http://localhost:7860" (.ok 201 (.str "h"))).fst.status = 200
    ∧ (200 : Nat) ≠ 201
    ∧ (historyRoute "abc" "http://localhost:7860"
        (.err (.timeout "timeout of 5000ms exceeded"))).fst
      = { status := 500, body := .obj [("error", .str "timeout of 5000ms exceeded")] }
    ∧ "timeout of 5000ms exceeded" ≠ "Failed to retrieve session history" :=
  ⟨rfl, by decide, rfl, by decide⟩

/-- C6 (amended): the history route replies 200 with the upstream body on
success; when the upstream returned an error response, it replies with the
upstream status, error text "Failed to retrieve session history", and the
upstream body under `details`; transport failures reach the catch-all
handler, which replies 500 with the raw error message. -/
theorem history_route_contract
    (sid url : String) (s : Nat) (d : Json) (sE : Nat) (dE : Json) (mE m : String) :
    (historyRoute sid url (.ok s d)).fst = { status := 200, body := d }
    ∧ (historyRoute sid url (.err (.response sE dE mE))).fst
        = { status := sE,
            body := .obj [("error", .str "Failed to retrieve session history"),
                          ("details", dE)] }
    ∧ (historyRoute sid url (.err (.refused m))).fst
        = errorHandler { message := m, statusCode := none }
    ∧ (historyRoute sid url (.err (.timeout m))).fst
        = errorHandler { message := m, statusCode := none }
    ∧ (historyRoute sid url (.err (.other m))).fst
        = errorHandler { message := m, statusCode := none } :=
  ⟨rfl, rfl, rfl, rfl, rfl⟩

/-- C7 counterexample: `server.js` mounts the CJS `routes/modelRoutes.js`
variant at `/api/model`, and that variant replies with the upstream body
unwrapped — for upstream body `"x"` the response body is `"x"`, which is
not the claimed `{success: true, result: "x"}` object. -/
theorem predict_mounted_shape_cex :
    predictRouteCJS
        { HF_MODEL_URL := some "https://hf.example/predict",
          HF_API_TOKEN := none, HF_API_KEY := none, PORT := none }
        (.ok 200 (.str "x"))
      = { status := 200, body := .str "x" }
    ∧ Json.str "x" ≠ Json.obj [("success", .bool true), ("result", .str "x")] :=
  ⟨rfl, fun h => Json.noConfusion h⟩

/-- C7 (amended): the ESM predict variant behaves exactly as the claim
states — `{success: true, result}` on success, the fixed
`{success: false, error: "Inference failed"}` with status 500 on any
failure — while the CJS variant mounted by `server.js` relays the raw
upstream body with status 200 and maps failures through the catch-all
handler under the upstream-derived status. -/
theorem predict_variants_contract
    (s : Nat) (d : Json) (e : AxiosError) (env : Env)
    (hurl : truthyStr env.HF_MODEL_URL = true) :
    predictRouteESM (.ok s d)
      = { status := 200, body := .obj [("success", .bool true), ("result", d)] }
    ∧ predictRouteESM (.err e)
      = { status := 500,
          body := .obj [("success", .bool false), ("error", .str "Inference failed")] }
    ∧ predictRouteCJS env (.ok s d) = { status := 200, body := d }
    ∧ predictRouteCJS env (.err e)
      = errorHandler
          { message := "HF call failed (" ++ toString (hfErrStatus e) ++ "): "
                        ++ (hfErrData e).stringify,
            statusCode := some (hfErrStatus e) } := by
  refine ⟨rfl, rfl, ?_, ?_⟩ <;> simp [predictRouteCJS, callHFModelCJS, hurl]

theorem predict_variants_contract_witness :
    predictRouteESM (.ok 200 (.str "x"))
      = { status := 200, body := .obj [("success", .bool true), ("result", .str "x")] }
    ∧ predictRouteCJS
        { HF_MODEL_URL := some "https://hf.example/predict",
          HF_API_TOKEN := none, HF_API_KEY := none, PORT := none }
        (.ok 200 (.str "y")) = { status := 200, body := .str "y" } :=
  ⟨(predict_variants_contract 200 (.str "x") (.other "m")
      { HF_MODEL_URL := some "https://hf.example/predict",
        HF_API_TOKEN := none, HF_API_KEY := none, PORT := none } (by decide)).1,
   (predict_variants_contract 200 (.str "y") (.other "m")
      { HF_MODEL_URL := some "https://hf.example/predict",
        HF_API_TOKEN := none, HF_API_KEY := none, PORT := none } (by decide)).2.2.1⟩

/-- C8: when `HF_MODEL_URL` is unset, the mounted model-proxy route fails
the request with status 503 and the service's own error message, whatever
the (never-issued) outbound call would have returned; and server startup is
unaffected — its outcome does not depend on `HF_MODEL_URL` at all. -/
theorem predict_missing_url_503
    (env : Env) (outcome : AxiosOutcome) (dbConnects : Bool) (url2 : Option String)
    (h : env.HF_MODEL_URL = none) :
    predictRouteCJS env outcome
      = { status := 503, body := .obj [("error", .str "HF_MODEL_URL is missing in .env")] }
    ∧ serverStartup { env with HF_MODEL_URL := url2 } dbConnects
        = serverStartup env dbConnects := by
  refine ⟨?_, rfl⟩
  simp [predictRouteCJS, callHFModelCJS, truthyStr, h, errorHandler]

theorem predict_missing_url_503_witness :
    predictRouteCJS
        { HF_MODEL_URL := none, HF_API_TOKEN := none, HF_API_KEY := none, PORT := none }
        (.ok 200 (.str "x"))
      = { status := 503, body := .obj [("error", .str "HF_MODEL_URL is missing in .env")] } :=
  (predict_missing_url_503
      { HF_MODEL_URL := none, HF_API_TOKEN := none, HF_API_KEY := none, PORT := none }
      (.ok 200 (.str "x")) true none rfl).1

/-- C9 counterexample: the history, delete, and health calls pass an axios
config containing only a timeout — no headers at all — so not every
outbound call carries `Content-Type: application/json`. -/
theorem outbound_headers_cex :
    (historyRoute "abc" "http://localhost:7860" (.ok 200 .null)).snd.headers = []
    ∧ (deleteRoute "abc" "http://localhost:7860" (.ok 200 .null)).snd.headers = []
    ∧ (healthRoute "http://localhost:7860" (.ok 200 .null)).snd.headers = []
    ∧ List.lookup "Content-Type" ([] : List (String × String)) = none :=
  ⟨rfl, rfl, rfl, rfl⟩

/-- C9 (amended): the run call and both inference-call variants set
`Content-Type: application/json`, and the CJS inference call attaches an
`Authorization` bearer header when a token is configured (the ESM variant
always attaches one); but the history, delete, and health calls pass no
explicit headers, only a timeout. -/
theorem outbound_headers_contract
    (body : Json) (url sid t : String) (outcome : AxiosOutcome) (env : Env)
    (hq : truthy (body.lookup "query") = true)
    (ht : env.HF_API_TOKEN = some t) (htne : t ≠ "") :
    ((runRoute body url outcome).snd.map OutboundReq.headers)
        = some [("Content-Type", "application/json")]
    ∧ hfHeadersCJS env
        = [("Content-Type", "application/json"), ("Authorization", "Bearer " ++ t)]
    ∧ (hfHeadersESM env).lookup "Content-Type" = some "application/json"
    ∧ (historyRoute sid url outcome).snd.headers = []
    ∧ (deleteRoute sid url outcome).snd.headers = []
    ∧ (healthRoute url outcome).snd.headers = [] := by
  refine ⟨?_, ?_, rfl, ?_, ?_, ?_⟩
  · cases outcome with
    | ok s d => simp [runRoute, hq]
    | err e => cases e <;> simp [runRoute, hq]
  · simp [hfHeadersCJS, truthyStr, ht, htne]
  · cases outcome with
    | ok s d => rfl
    | err e => cases e <;> rfl
  · cases outcome with
    | ok s d => rfl
    | err e => cases e <;> rfl
  · cases outcome with
    | ok s d => rfl
    | err e => cases e <;> rfl

theorem outbound_headers_contract_witness :
    ((runRoute (.obj [("query", .str "hi")]) "http://localhost:7860"
        (.ok 200 .null)).snd.map OutboundReq.headers)
      = some [("Content-Type", "application/json")]
    ∧ hfHeadersCJS
        { HF_MODEL_URL := some "https://hf.example/predict",
          HF_API_TOKEN := some "tok123", HF_API_KEY := none, PORT := none }
      = [("Content-Type", "application/json"), ("Authorization", "Bearer " ++ "tok123")] :=
  ⟨(outbound_headers_contract (.obj [("query", .str "hi")]) "http://localhost:7860" "s"
      "tok123" (.ok 200 .null)
      { HF_MODEL_URL := some "https://hf.example/predict",
        HF_API_TOKEN := some "tok123", HF_API_KEY := none, PORT := none }
      (by decide) rfl (by decide)).1,
   (outbound_headers_contract (.obj [("query", .str "hi")]) "http://localhost:7860" "s"
      "tok123" (.ok 200 .null)
      { HF_MODEL_URL := some "https://hf.example/predict",
        HF_API_TOKEN := some "tok123", HF_API_KEY := none, PORT := none }
      (by decide) rfl (by decide)).2.1⟩

/-- C10: for every run request passing validation, the body forwarded to
the agent service is exactly the two-field object `{session_id, query}`
where `query` is the caller's query value and `session_id` is the caller's
value when truthy and `null` otherwise — so an absent, `null`,
empty-string, or otherwise falsy `session_id` is normalized to `null`. -/
theorem run_forwarded_body
    (body : Json) (url : String) (outcome : AxiosOutcome)
    (hq : truthy (body.lookup "query") = true) :
    ((runRoute body url outcome).snd.map OutboundReq.body)
      = some (some (.obj
          [("session_id",
            if truthy (body.lookup "session_id")
            then (body.lookup "session_id").getD .null
            else .null),
           ("query", (body.lookup "query").getD .null)])) := by
  cases outcome with
  | ok s d => simp [runRoute, hq, jsOr_eq_ite]
  | err e => cases e <;> simp [runRoute, hq, jsOr_eq_ite]

theorem run_forwarded_body_witness :
    ((runRoute (.obj [("session_id", .str ""), ("query", .str "q1")])
        "http://localhost:7860" (.ok 200 .null)).snd.map OutboundReq.body)
      = some (some (.obj [("session_id", .null), ("query", .str "q1")])) := by
  have h := run_forwarded_body (.obj [("session_id", .str ""), ("query", .str "q1")])
      "http://localhost:7860" (.ok 200 .null) (by decide)
  simpa using h
